import Mathlib

/-!
# CodeGather: shallow embedding of `src/codegather.py`

This file embeds the selection-and-resolution engine of the CodeGather
utility (`codegather.py`): the config parser `parse_config`, the exclusion
matcher `is_excluded` (which calls the Python standard-library glob matcher
`fnmatch.fnmatchcase`), the settings merge performed at the top of
`handle_run_command`, and the file-selection loop of `handle_run_command`.

Python strings are modelled as `List Char` (`Str`), and filesystem paths as
lists of path components (`List Str`), mirroring `pathlib.Path.parts` of a
resolved absolute path.  Character classification (`str.isalnum`,
`str.lower`) is modelled at ASCII precision, which covers every input the
specification and the rule-file format speak about.
-/

/-- A Python `str`, modelled as its list of characters. -/
abbrev Str := List Char

/-- Python `c.isalnum()` for one character (ASCII model). -/
def pyIsAlnum (c : Char) : Bool := c.isAlphanum

/-- The check `c.isalnum() or c == '.'` from `parse_config` (line 128). -/
def isAlnumDot (c : Char) : Bool := pyIsAlnum c || c = '.'

/-- Whitespace as removed by Python `str.strip()`. -/
def pyIsSpace (c : Char) : Bool :=
  c = ' ' || c = '\t' || c = '\n' || c = '\r' || c = '\x0b' || c = '\x0c'

/-- Python `str.strip()`: drop whitespace from both ends. -/
def pyStrip (s : Str) : Str :=
  ((s.dropWhile pyIsSpace).reverse.dropWhile pyIsSpace).reverse

/-- Python `str.lower()` for one character (ASCII model). -/
def pyToLower (c : Char) : Char := c.toLower

/-- One character of `str.replace('\\', '/')`. -/
def normSep (c : Char) : Char := if c = '\\' then '/' else c

/-- Python `str.rstrip('/')`: drop every trailing `/`. -/
def rstripSlashes (s : Str) : Str :=
  (s.reverse.dropWhile (fun c => c = '/')).reverse

/-!
## `fnmatch.fnmatchcase`

CPython's `fnmatch.fnmatchcase(name, pat)` translates `pat` into a regular
expression (`fnmatch.translate`) and then runs a full match of `name`
against it.  We mirror that two-phase structure: `compilePat` turns the
pattern into a token list (`*`, `?`, literal characters, and bracket
classes, with an unclosed `[` kept as a literal, exactly as `translate`
does), and `matchToks` runs the full match.  Both are written with an
explicit structural fuel so that they reduce inside the kernel; the fuel
chosen by the wrappers (`compilePat`, `matchToks`) always suffices, since
compilation consumes at least one pattern character per step and matching
decreases `tokens + input` at every step.
-/

/-- One compiled glob token. -/
inductive GlobTok where
  | star : GlobTok
  | anyChar : GlobTok
  | lit : Char → GlobTok
  | cls : Bool → Str → GlobTok
deriving DecidableEq, Repr

/-- Split a string at the first `]`, returning the part before it and the
part after it; `none` when there is no `]`.  This is the scan
`while j < n and pat[j] != ']': j += 1` of `fnmatch.translate`. -/
def splitAtRBracket : Str → Option (Str × Str)
  | [] => none
  | ']' :: t => some ([], t)
  | c :: t =>
    match splitAtRBracket t with
    | none => none
    | some (b, r) => some (c :: b, r)

/-- Scan a bracket expression.  `after` is what follows the opening `[`.
Per `fnmatch.translate`: a leading `!` and a `]` directly after it are part
of the class body; the scan then looks for the closing `]`.  Returns the
class body and the rest of the pattern, or `none` when the bracket is
unclosed. -/
def scanBracket (after : Str) : Option (Str × Str) :=
  let j1 : Nat := if after.head? = some '!' then 1 else 0
  let j2 : Nat := if (after.drop j1).head? = some ']' then j1 + 1 else j1
  match splitAtRBracket (after.drop j2) with
  | none => none
  | some (body, rest) => some (after.take j2 ++ body, rest)

/-- Compilation worker; the fuel bounds the number of steps and is at least
the pattern length at every call, so the `0` case is unreachable. -/
def compilePatAux : Nat → Str → List GlobTok
  | _, [] => []
  | 0, _ :: _ => []
  | fuel + 1, '*' :: ps => GlobTok.star :: compilePatAux fuel ps
  | fuel + 1, '?' :: ps => GlobTok.anyChar :: compilePatAux fuel ps
  | fuel + 1, '[' :: ps =>
    (match scanBracket ps with
     | none => GlobTok.lit '[' :: compilePatAux fuel ps
     | some (content, rest) =>
       (match content with
        | '!' :: t => GlobTok.cls true t
        | t => GlobTok.cls false t) :: compilePatAux fuel rest)
  | fuel + 1, c :: ps => GlobTok.lit c :: compilePatAux fuel ps

/-- Compile a glob pattern into tokens, following `fnmatch.translate`:
`*` and `?` become wildcard tokens, `[...]` becomes a character class
(negated when the body starts with `!`), an unclosed `[` is a literal
`[`, and every other character is a literal. -/
def compilePat (pat : Str) : List GlobTok :=
  compilePatAux pat.length pat

/-- Membership of a character in a bracket-class body: `a-b` is a range
(an empty range matches nothing, as in `translate` after its empty-range
removal), every other character is a literal. -/
def inClassSet : Str → Char → Bool
  | [], _ => false
  | a :: '-' :: b :: rest, c => (decide (a ≤ c) && decide (c ≤ b)) || inClassSet rest c
  | a :: rest, c => (a = c : Bool) || inClassSet rest c

/-- Matching worker; the fuel is at least `tokens + input length` at every
call, so the `0, _ :: _, _` case is unreachable. -/
def matchToksAux : Nat → List GlobTok → Str → Bool
  | _, [], s => s.isEmpty
  | 0, _ :: _, _ => false
  | fuel + 1, GlobTok.star :: ts, s =>
    matchToksAux fuel ts s ||
      (match s with
       | [] => false
       | _ :: s' => matchToksAux fuel (GlobTok.star :: ts) s')
  | fuel + 1, GlobTok.anyChar :: ts, s =>
    (match s with
     | [] => false
     | _ :: s' => matchToksAux fuel ts s')
  | fuel + 1, GlobTok.lit c :: ts, s =>
    (match s with
     | [] => false
     | d :: s' => (d = c : Bool) && matchToksAux fuel ts s')
  | fuel + 1, GlobTok.cls neg items :: ts, s =>
    (match s with
     | [] => false
     | d :: s' => xor neg (inClassSet items d) && matchToksAux fuel ts s')

/-- Run the compiled tokens against a string, demanding a full match (the
`\Z` anchor of `translate`); `*` and `?` match any character including
newlines (the `(?s:` flag of `translate`). -/
def matchToks (ts : List GlobTok) (s : Str) : Bool :=
  matchToksAux (ts.length + s.length) ts s

/-- `fnmatch.fnmatchcase(name, pat)`: case-sensitive glob match of the
whole of `name` against `pat`. -/
def fnmatchcase (name pat : Str) : Bool :=
  matchToks (compilePat pat) name

example : fnmatchcase ("out.log").data ("*.log").data = true := by decide
example : fnmatchcase ("out.log1").data ("*.log").data = false := by decide
example : fnmatchcase ("a/b/x.log").data ("a/*.log").data = true := by decide
example : fnmatchcase ("b/a.log").data ("a/*.log").data = false := by decide
example : fnmatchcase ("[abc").data ("[abc").data = true := by decide
example : fnmatchcase ("b").data ("[abc]").data = true := by decide
example : fnmatchcase ("d").data ("[abc]").data = false := by decide
example : fnmatchcase ("d").data ("[!abc]").data = true := by decide
example : fnmatchcase ("m").data ("[a-z]").data = true := by decide
example : fnmatchcase ("x?y").data ("x[?]y").data = true := by decide

/-!
## `parse_config` (codegather.py lines 80–157)

The parser reads the rule file line by line, collecting typed settings,
include-extension patterns and exclude patterns, and then resolves the
final include list (explicit patterns, else the expanded
`default_extensions`, else the script default).

The filesystem aspect is abstracted into `ConfigSource`: a missing file
(`is_file()` false, the read loop is skipped), an existing but unreadable
file (`is_file()` true, `open` raises, and `parse_config` has no handler
for that), or the list of lines read from the file.
-/

/-- The `loaded_config_settings` dictionary (lines 81–86); every entry
starts out `None`. -/
structure LoadedSettings where
  output_file : Option Str
  no_header : Option Bool
  default_extensions_str : Option Str
  session_prompt_file : Option Str
deriving DecidableEq, Repr

/-- The initial settings dictionary: all four values `None`. -/
def initSettings : LoadedSettings := ⟨none, none, none, none⟩

/-- `DEFAULT_OUTPUT_FILENAME = "combined_code.txt"` (line 11). -/
def DEFAULT_OUTPUT_FILENAME : Str := ("combined_code.txt").data

/-- `DEFAULT_NO_HEADER_STATE = False` (line 12). -/
def DEFAULT_NO_HEADER_STATE : Bool := false

/-- `DEFAULT_SCRIPT_INCLUDE_EXTENSIONS = ["*.js", "*.jsx"]` (line 14). -/
def DEFAULT_SCRIPT_INCLUDE_EXTENSIONS : List Str :=
  [("*.js").data, ("*.jsx").data]

/-- `value.lower() in ['true', 'yes', '1', 'on']` (line 112). -/
def truthyWord (v : Str) : Bool :=
  let lv := v.map pyToLower
  (lv = ("true").data : Bool) || (lv = ("yes").data : Bool) ||
    (lv = ("1").data : Bool) || (lv = ("on").data : Bool)

/-- One character of `key_raw.strip().lower().replace('-', '_')`
(line 101): lower-case, then `-` becomes `_`. -/
def keyNormChar (c : Char) : Char :=
  let l := pyToLower c
  if l = '-' then '_' else l

/-- Key-value handling of one line known to contain `:` (lines 100–116):
split on the first `:`, normalize the key, strip an inline `#` comment
from the value, and store the value under a recognized key (an
unrecognized key leaves the settings unchanged). -/
def applySetting (st : LoadedSettings) (sl : Str) : LoadedSettings :=
  let key_raw := sl.takeWhile (fun c => (c ≠ ':' : Bool))
  let value_raw := (sl.dropWhile (fun c => (c ≠ ':' : Bool))).drop 1
  let key := (pyStrip key_raw).map keyNormChar
  let value :=
    if '#' ∈ value_raw then pyStrip (value_raw.takeWhile (fun c => (c ≠ '#' : Bool)))
    else pyStrip value_raw
  if key = ("output_file").data then { st with output_file := some value }
  else if key = ("no_header").data then { st with no_header := some (truthyWord value) }
  else if key = ("default_extensions").data then { st with default_extensions_str := some value }
  else if key = ("session_prompt_file").data then { st with session_prompt_file := some value }
  else st

/-- The include-extension test of lines 125–128: the stripped line starts
with `*.`, contains no `/` and no `\`, and the part after `*.` is
non-empty and made of alphanumeric or `.` characters only. -/
def isIncludePatternLine (sl : Str) : Prop :=
  ("*.").data <+: sl ∧ '/' ∉ sl ∧ '\\' ∉ sl ∧
    sl.drop 2 ≠ [] ∧ (sl.drop 2).all isAlnumDot = true

instance : DecidablePred isIncludePatternLine := fun sl => by
  unfold isIncludePatternLine; infer_instance

/-- Processing of a single rule-file line (lines 93–136): skip blank lines
and `#` comments; a line containing `:` is a key-value setting line and is
never a pattern; otherwise classify as include-extension pattern or
exclude pattern. -/
def processLine (acc : LoadedSettings × List Str × List Str) (line : Str) :
    LoadedSettings × List Str × List Str :=
  let sl := pyStrip line
  if sl = [] then acc
  else if sl.head? = some '#' then acc
  else if ':' ∈ sl then (applySetting acc.1 sl, acc.2.1, acc.2.2)
  else if isIncludePatternLine sl then (acc.1, acc.2.1 ++ [sl], acc.2.2)
  else (acc.1, acc.2.1, acc.2.2 ++ [sl])

/-- The read loop of `parse_config`: fold `processLine` over the file's
lines, starting from empty settings and empty pattern lists. -/
def parseLines (lines : List Str) : LoadedSettings × List Str × List Str :=
  lines.foldl processLine (initSettings, [], [])

/-- Expansion of one `default_extensions` token (lines 149–151):
`*.ext` is passed through, `.ext` becomes `*.ext`, and a bare `ext`
becomes `*.ext`. -/
def expandExtToken (e : Str) : Str :=
  if ("*.").data <+: e then e
  else if e.head? = some '.' then '*' :: e
  else '*' :: '.' :: e

/-- Expansion of the comma-separated `default_extensions` value
(lines 146–151): split on `,`, strip each token, drop empty tokens, and
expand each remaining token. -/
def expandDefaultExtensions (s : Str) : List Str :=
  (((s.splitOn ',').map pyStrip).filter (fun e => (e ≠ [] : Bool))).map expandExtToken

/-- Resolution of the final include list (lines 140–155): explicit `*.ext`
pattern lines win; otherwise a non-empty `default_extensions` value is
expanded; otherwise the script default list is used. -/
def finalizeIncludes (st : LoadedSettings) (inc : List Str) : List Str :=
  if inc ≠ [] then inc
  else
    match st.default_extensions_str with
    | some s =>
      if s ≠ [] then expandDefaultExtensions s else DEFAULT_SCRIPT_INCLUDE_EXTENSIONS
    | none => DEFAULT_SCRIPT_INCLUDE_EXTENSIONS

/-- What `parse_config` can be given: a missing rule file, an existing but
unreadable one, or the file's lines. -/
inductive ConfigSource where
  | missing : ConfigSource
  | unreadable : ConfigSource
  | contents : List Str → ConfigSource

/-- Parse a list of rule-file lines and finalize the include list; this is
`parse_config` for a readable file with the given lines. -/
def parseConfigLines (lines : List Str) : LoadedSettings × List Str × List Str :=
  let r := parseLines lines
  (r.1, finalizeIncludes r.1 r.2.1, r.2.2)

/-- `parse_config` (lines 80–157) with its exception behaviour explicit:
a missing file skips the read loop (same outcome as a file with no lines);
an existing but unreadable file makes `open` raise, and nothing in
`parse_config` catches that, so the call errors. -/
def parse_config : ConfigSource → Except Unit (LoadedSettings × List Str × List Str)
  | ConfigSource.missing => Except.ok (parseConfigLines [])
  | ConfigSource.unreadable => Except.error ()
  | ConfigSource.contents lines => Except.ok (parseConfigLines lines)

example : (parseConfigLines [("default_extensions: py, .ts, *.md").data]).2.1 =
    [("*.py").data, ("*.ts").data, ("*.md").data] := by decide
example : (parseConfigLines [("foo: bar").data]).2.2 = [] := by decide
example : (parseConfigLines [("*.x:y").data]).2.2 = [] := by decide
example : (parseConfigLines [("*.py").data]).2.1 = [("*.py").data] := by decide
example : (parseConfigLines [("*.log.bak").data]).2.1 = [("*.log.bak").data] := by decide
example : (parseConfigLines [("*.log*").data]).2.2 = [("*.log*").data] := by decide
example : (parseConfigLines [("node_modules/").data]).2.2 = [("node_modules/").data] := by decide
example : (parseConfigLines [("no_header: yes").data]).1.no_header = some true := by decide
example : (parseConfigLines [("No-Header: TRUE # keep").data]).1.no_header = some true := by decide
example : (parseConfigLines [("output_file: out.txt # note").data]).1.output_file =
    some (("out.txt").data) := by decide
example : parse_config ConfigSource.missing =
    Except.ok (initSettings, DEFAULT_SCRIPT_INCLUDE_EXTENSIONS, []) := rfl

/-!
## `is_excluded` (codegather.py lines 160–198)

Paths are lists of components of a resolved absolute path
(`pathlib.Path.parts`), so path equality is component-list equality,
`relative_to` strips a component prefix, and `.name` is the last
component.
-/

/-- Python `Path.name`: the last path component (`''` for the root). -/
def pyName (item : List Str) : Str := item.getLast?.getD []

/-- `Path.relative_to`: strip the root's components; `none` models the
`ValueError` raised when the item is not below the root. -/
def relative_to (item root : List Str) : Option (List Str) :=
  if root.isPrefixOf item then some (item.drop root.length) else none

/-- `str(relative_item_path)`: components joined with `/`; the empty
relative path prints as `.`. -/
def pathStr (rel : List Str) : Str :=
  if rel = [] then ['.'] else List.intercalate ['/'] rel

/-- `str(relative_item_path).replace('\\', '/')` (line 171). -/
def pathStrNorm (rel : List Str) : Str := (pathStr rel).map normSep

/-- The body of the per-pattern loop of `is_excluded` (lines 173–197):
whether one exclude pattern matches, given the normalized relative path
string and the entry's base name.  A directory marker (trailing `/`)
matches the directory itself or anything below it; a pattern containing
`/` is glob-matched against the whole relative path; any other pattern is
glob-matched against the base name only. -/
def matchesExcludePattern (relStr name pat : Str) : Bool :=
  let ps := pyStrip pat
  if ps = [] then false
  else
    let pn := ps.map normSep
    if pn.getLast? = some '/' then
      let ptm := rstripSlashes pn
      (relStr = ptm : Bool) || (ptm ++ ['/']).isPrefixOf relStr
    else if '/' ∈ pn then
      fnmatchcase relStr pn
    else
      fnmatchcase name ps

/-- `is_excluded(item_path_abs, root_path_abs, exclude_patterns,
output_file_path_abs)` (lines 160–198): the output file is always
excluded; an entry that cannot be made relative to the root is excluded
(the `ValueError` is caught, lines 164–168); otherwise the exclude
patterns are tried in order. -/
def is_excluded (item root : List Str) (exclude_patterns : List Str)
    (out : List Str) : Bool :=
  if item = out then true
  else
    match relative_to item root with
    | none => true
    | some rel =>
      exclude_patterns.any
        (fun pat => matchesExcludePattern (pathStrNorm rel) (pyName item) pat)

/-- `is_excluded` with its exception behaviour explicit: `relative_to` is
the only operation inside that can raise, its `ValueError` is caught by
the `try/except` of lines 164–168, and `fnmatch` translates every pattern
totally (an unclosed `[` becomes a literal), so every call returns a
boolean and no exception escapes. -/
def is_excludedE (item root : List Str) (exclude_patterns : List Str)
    (out : List Str) : Except Unit Bool :=
  if item = out then Except.ok true
  else
    match relative_to item root with
    | none => Except.ok true
    | some rel =>
      Except.ok (exclude_patterns.any
        (fun pat => matchesExcludePattern (pathStrNorm rel) (pyName item) pat))

/-!
## The selection scan of `handle_run_command` (lines 354–370)

The walk `root_path.rglob("*")` is modelled as the list of visited
entries in discovery order; each entry is its path relative to the root
plus whether it is a regular file.  The loop itself never prunes: every
entry of the walk is tested individually.
-/

/-- One filesystem entry visited by `rglob`: its path components relative
to the root (non-empty for a genuine descendant) and whether it is a
regular file. -/
structure Entry where
  rel : List Str
  isFile : Bool
deriving DecidableEq, Repr

/-- The body of the scan loop for one entry (lines 356–368): skip the
session-prompt file, skip excluded entries, then select regular files
whose base name matches some include-extension pattern. -/
def keepEntry (root : List Str) (include_patterns exclude_patterns : List Str)
    (out : List Str) (sessionPrompt : Option (List Str)) (e : Entry) : Bool :=
  let item := root ++ e.rel
  if sessionPrompt = some item then false
  else if is_excluded item root exclude_patterns out then false
  else if e.isFile then include_patterns.any (fun p => fnmatchcase (pyName item) p)
  else false

/-- `files_to_process` as built by the scan loop (lines 355–369): the
walk's entries that pass `keepEntry`, as absolute paths, in walk order. -/
def scanFiles (root : List Str) (entries : List Entry)
    (include_patterns exclude_patterns : List Str)
    (out : List Str) (sessionPrompt : Option (List Str)) : List (List Str) :=
  (entries.filter
      (keepEntry root include_patterns exclude_patterns out sessionPrompt)).map
    (fun e => root ++ e.rel)

example :
    scanFiles [("proj").data]
      [⟨[("src").data], false⟩,
       ⟨[("src").data, ("app.js").data], true⟩,
       ⟨[("src").data, ("app.test.js").data], true⟩,
       ⟨[("node_modules").data], false⟩,
       ⟨[("node_modules").data, ("pkg").data], false⟩,
       ⟨[("node_modules").data, ("pkg").data, ("index.js").data], true⟩]
      [("*.js").data] [("*.test.js").data, ("node_modules/").data]
      [("proj").data, ("combined_code.txt").data] none =
    [[("proj").data, ("src").data, ("app.js").data]] := by decide

/-!
## The settings merge of `handle_run_command` (lines 261–297)

CLI values are `Option`s: `none` is argparse's unset sentinel (`None`).
A string-valued setting is "present" when it is a non-empty string
(Python truthiness); the `--no-header` flag uses `is not None`.
-/

/-- Where a merged value came from (`output_source_log` /
`session_prompt_source_log`). -/
inductive SettingSource where
  | script_default : SettingSource
  | config_file : SettingSource
  | cli : SettingSource
deriving DecidableEq, Repr

/-- Python truthiness of an optional string: `None` and `''` are falsy. -/
def pyTruthy : Option Str → Bool
  | none => false
  | some s => (s ≠ [] : Bool)

/-- Output-path selection (lines 261–268): start from the script default,
overwrite with a truthy config value, then overwrite with a truthy CLI
value. -/
def mergeOutput (cliOutput cfgOutput : Option Str) : Str × SettingSource :=
  let r0 := (DEFAULT_OUTPUT_FILENAME, SettingSource.script_default)
  let r1 := if pyTruthy cfgOutput then (cfgOutput.getD [], SettingSource.config_file) else r0
  if pyTruthy cliOutput then (cliOutput.getD [], SettingSource.cli) else r1

/-- Header-flag selection (lines 276–280): start from the default,
overwrite with a non-`None` config value, then with a non-`None` CLI
value (`--no-header` defaults to `None`, not `False`). -/
def mergeNoHeader (cliNoHeader cfgNoHeader : Option Bool) : Bool :=
  let r0 := DEFAULT_NO_HEADER_STATE
  let r1 := match cfgNoHeader with | some v => v | none => r0
  match cliNoHeader with | some v => v | none => r1

/-- Session-prompt selection (lines 282–297): a truthy CLI value wins,
else a truthy config value, else no session prompt. -/
def mergeSessionPrompt (cliPrompt cfgPrompt : Option Str) :
    Option (Str × SettingSource) :=
  if pyTruthy cliPrompt then some (cliPrompt.getD [], SettingSource.cli)
  else if pyTruthy cfgPrompt then some (cfgPrompt.getD [], SettingSource.config_file)
  else none

example : (mergeOutput none (some (("o.txt").data))).1 = ("o.txt").data := by decide
example : mergeNoHeader none (some true) = true := by decide
example : mergeSessionPrompt (some (("p.txt").data)) (some (("q.txt").data)) =
    some ((("p.txt").data), SettingSource.cli) := by decide

/-!
## Helper lemmas
-/

theorem dropWhile_eq_self_of_forall {p : Char → Bool} {l : Str}
    (h : ∀ c ∈ l, p c = false) : l.dropWhile p = l := by
  cases l with
  | nil => rfl
  | cons a t => simp [List.dropWhile_cons, h a (List.mem_cons_self a t)]

theorem pyStrip_eq_self {l : Str} (h : ∀ c ∈ l, pyIsSpace c = false) :
    pyStrip l = l := by
  unfold pyStrip
  rw [dropWhile_eq_self_of_forall h,
    dropWhile_eq_self_of_forall (fun c hc => h c (List.mem_reverse.mp hc)),
    List.reverse_reverse]

theorem map_normSep_eq_self {s : Str} (h : '\\' ∉ s) : s.map normSep = s := by
  induction s with
  | nil => rfl
  | cons a t ih =>
    have ha : a ≠ '\\' := fun hh => h (hh ▸ List.mem_cons_self a t)
    simp only [List.map_cons, normSep, if_neg ha]
    rw [ih (fun hm => h (List.mem_cons_of_mem a hm))]

theorem getLast?_mem_of_eq {l : Str} {a : Char} (h : l.getLast? = some a) : a ∈ l := by
  cases l with
  | nil => simp at h
  | cons b t =>
    have := List.getLast?_eq_getLast (b :: t) (by simp)
    rw [this] at h
    have ha : (b :: t).getLast (by simp) = a := by injection h
    exact ha ▸ List.getLast_mem _

theorem relative_to_append (root rel : List Str) :
    relative_to (root ++ rel) root = some rel := by
  unfold relative_to
  rw [if_pos, List.drop_left]
  rw [List.isPrefixOf_iff_prefix]
  exact List.prefix_append root rel

theorem pyName_append (root : List Str) {rel : List Str} (h : rel ≠ []) :
    pyName (root ++ rel) = pyName rel := by
  unfold pyName
  rw [List.getLast?_append_of_ne_nil root h]

theorem is_excluded_append (root rel out : List Str) (pats : List Str)
    (hout : root ++ rel ≠ out) :
    is_excluded (root ++ rel) root pats out =
      pats.any (fun pat =>
        matchesExcludePattern (pathStrNorm rel) (pyName (root ++ rel)) pat) := by
  unfold is_excluded
  rw [if_neg hout, relative_to_append]

theorem pathStrNorm_eq_pathStr {rel : List Str}
    (h : ∀ c ∈ pathStr rel, c ≠ '\\') : pathStrNorm rel = pathStr rel := by
  unfold pathStrNorm
  exact map_normSep_eq_self (fun hm => h '\\' hm rfl)

theorem matchesExcludePattern_dir {relStr name p : Str}
    (htrim : pyStrip p = p) (hnb : '\\' ∉ p) (hdir : p.getLast? = some '/') :
    matchesExcludePattern relStr name p =
      ((relStr = rstripSlashes p : Bool) ||
        (rstripSlashes p ++ ['/']).isPrefixOf relStr) := by
  have hne : p ≠ [] := by intro hh; rw [hh] at hdir; simp at hdir
  unfold matchesExcludePattern
  rw [htrim, if_neg hne, map_normSep_eq_self hnb, if_pos hdir]

theorem matchesExcludePattern_basename {relStr name p : Str}
    (htrim : pyStrip p = p) (hpne : p ≠ []) (hnb : '\\' ∉ p) (hns : '/' ∉ p) :
    matchesExcludePattern relStr name p = fnmatchcase name p := by
  have hdir : ¬ p.getLast? = some '/' := fun hd => hns (getLast?_mem_of_eq hd)
  unfold matchesExcludePattern
  rw [htrim, if_neg hpne, map_normSep_eq_self hnb, if_neg hdir, if_neg hns]

theorem matchesExcludePattern_pathGlob {relStr name p : Str}
    (htrim : pyStrip p = p) (hnb : '\\' ∉ p) (hns : '/' ∈ p)
    (hdir : ¬ p.getLast? = some '/') :
    matchesExcludePattern relStr name p = fnmatchcase relStr p := by
  have hpne : p ≠ [] := by intro hh; rw [hh] at hns; simp at hns
  unfold matchesExcludePattern
  rw [htrim, if_neg hpne, map_normSep_eq_self hnb, if_neg hdir, if_pos hns]

/-!
## Claim theorems
-/

/-- C4: for an exclude pattern ending in the separator (a directory
marker) and a candidate path below the root (and distinct from the output
file), `is_excluded` returns true exactly when the path relative to root
equals the pattern with its trailing separator stripped, or starts with
that stripped pattern followed by the separator. -/
theorem dir_marker_pattern_matching (root rel out : List Str) (p : Str)
    (hout : root ++ rel ≠ out)
    (hrelnb : ∀ c ∈ pathStr rel, c ≠ '\\')
    (htrim : pyStrip p = p) (hnb : '\\' ∉ p)
    (hdir : p.getLast? = some '/') :
    is_excluded (root ++ rel) root [p] out = true ↔
      (pathStr rel = rstripSlashes p ∨
        (rstripSlashes p ++ ['/']).isPrefixOf (pathStr rel) = true) := by
  rw [is_excluded_append root rel out [p] hout]
  simp only [List.any_cons, List.any_nil, Bool.or_false]
  rw [matchesExcludePattern_dir htrim hnb hdir, pathStrNorm_eq_pathStr hrelnb]
  simp [Bool.or_eq_true, decide_eq_true_iff]

/-- C4 witness: pattern `node_modules/` excludes `node_modules` itself and
`node_modules/sub/file.js`, but not `my_node_modules/file.js`. -/
theorem dir_marker_pattern_matching_witness :
    is_excluded [("proj").data, ("node_modules").data, ("sub").data, ("file.js").data]
      [("proj").data] [("node_modules/").data]
      [("proj").data, ("combined_code.txt").data] = true ∧
    is_excluded [("proj").data, ("node_modules").data]
      [("proj").data] [("node_modules/").data]
      [("proj").data, ("combined_code.txt").data] = true ∧
    is_excluded [("proj").data, ("my_node_modules").data, ("file.js").data]
      [("proj").data] [("node_modules/").data]
      [("proj").data, ("combined_code.txt").data] = false := by
  refine ⟨?_, ?_, ?_⟩
  · exact (dir_marker_pattern_matching [("proj").data]
      [("node_modules").data, ("sub").data, ("file.js").data]
      [("proj").data, ("combined_code.txt").data] (("node_modules/").data)
      (by decide) (by decide) (by decide) (by decide) (by decide)).mpr (by decide)
  · exact (dir_marker_pattern_matching [("proj").data]
      [("node_modules").data]
      [("proj").data, ("combined_code.txt").data] (("node_modules/").data)
      (by decide) (by decide) (by decide) (by decide) (by decide)).mpr (by decide)
  · have h := (dir_marker_pattern_matching [("proj").data]
      [("my_node_modules").data, ("file.js").data]
      [("proj").data, ("combined_code.txt").data] (("node_modules/").data)
      (by decide) (by decide) (by decide) (by decide) (by decide))
    revert h
    decide

/-- C5: an exclude pattern with no path separator (and no trailing
separator) is glob-matched case-sensitively against the entry's base name
only, at any nesting depth; a pattern containing a separator is
glob-matched case-sensitively against the whole path relative to root. -/
theorem basename_and_fullpath_pattern_matching (root rel out : List Str) (p q : Str)
    (hout : root ++ rel ≠ out) (hrelne : rel ≠ [])
    (hrelnb : ∀ c ∈ pathStr rel, c ≠ '\\')
    (hptrim : pyStrip p = p) (hpne : p ≠ []) (hpnb : '\\' ∉ p) (hpns : '/' ∉ p)
    (hqtrim : pyStrip q = q) (hqnb : '\\' ∉ q) (hqns : '/' ∈ q)
    (hqnd : ¬ q.getLast? = some '/') :
    (is_excluded (root ++ rel) root [p] out = true ↔
      fnmatchcase (pyName rel) p = true) ∧
    (is_excluded (root ++ rel) root [q] out = true ↔
      fnmatchcase (pathStr rel) q = true) := by
  constructor
  · rw [is_excluded_append root rel out [p] hout]
    simp only [List.any_cons, List.any_nil, Bool.or_false]
    rw [matchesExcludePattern_basename hptrim hpne hpnb hpns, pyName_append root hrelne]
  · rw [is_excluded_append root rel out [q] hout]
    simp only [List.any_cons, List.any_nil, Bool.or_false]
    rw [matchesExcludePattern_pathGlob hqtrim hqnb hqns hqnd,
      pathStrNorm_eq_pathStr hrelnb]

/-- C5 witness: `*.log` excludes `a/b/c/out.log` (basename match at
depth), while `a/*.log` is matched against the whole relative path, so it
excludes `a/x.log` but not `b/a.log`. -/
theorem basename_and_fullpath_pattern_matching_witness :
    is_excluded [("proj").data, ("a").data, ("b").data, ("c").data, ("out.log").data]
      [("proj").data] [("*.log").data]
      [("proj").data, ("combined_code.txt").data] = true ∧
    is_excluded [("proj").data, ("a").data, ("x.log").data]
      [("proj").data] [("a/*.log").data]
      [("proj").data, ("combined_code.txt").data] = true ∧
    is_excluded [("proj").data, ("b").data, ("a.log").data]
      [("proj").data] [("a/*.log").data]
      [("proj").data, ("combined_code.txt").data] = false := by
  refine ⟨?_, ?_, ?_⟩
  · exact ((basename_and_fullpath_pattern_matching [("proj").data]
      [("a").data, ("b").data, ("c").data, ("out.log").data]
      [("proj").data, ("combined_code.txt").data]
      (("*.log").data) (("a/*.log").data)
      (by decide) (by decide) (by decide) (by decide) (by decide) (by decide)
      (by decide) (by decide) (by decide) (by decide) (by decide)).1).mpr (by decide)
  · exact ((basename_and_fullpath_pattern_matching [("proj").data]
      [("a").data, ("x.log").data]
      [("proj").data, ("combined_code.txt").data]
      (("*.log").data) (("a/*.log").data)
      (by decide) (by decide) (by decide) (by decide) (by decide) (by decide)
      (by decide) (by decide) (by decide) (by decide) (by decide)).2).mpr (by decide)
  · have h := ((basename_and_fullpath_pattern_matching [("proj").data]
      [("b").data, ("a.log").data]
      [("proj").data, ("combined_code.txt").data]
      (("*.log").data) (("a/*.log").data)
      (by decide) (by decide) (by decide) (by decide) (by decide) (by decide)
      (by decide) (by decide) (by decide) (by decide) (by decide)).2)
    revert h
    decide

theorem is_excluded_eq_false_ne_out {item root out : List Str} {pats : List Str}
    (h : is_excluded item root pats out = false) : item ≠ out := by
  intro hh
  rw [hh] at h
  unfold is_excluded at h
  simp at h

/-- C2: every path produced by the scan is a root-prefixed (hence
absolute) path of a regular-file entry of the walk, is not the output
file, is not the session-prompt file, is not matched by any exclude
pattern (and `is_excluded` is false for it), and its base name matches at
least one include-extension pattern; the output list is a sublist of the
walk in discovery order (no sorting). -/
theorem scan_selection_invariant (root : List Str) (entries : List Entry)
    (include_patterns exclude_patterns : List Str) (out : List Str)
    (sessionPrompt : Option (List Str)) :
    (scanFiles root entries include_patterns exclude_patterns out
        sessionPrompt).Sublist (entries.map (fun e => root ++ e.rel)) ∧
    ∀ p ∈ scanFiles root entries include_patterns exclude_patterns out sessionPrompt,
      root <+: p ∧
      (∃ e ∈ entries, p = root ++ e.rel ∧ e.isFile = true) ∧
      p ≠ out ∧
      (∀ s, sessionPrompt = some s → p ≠ s) ∧
      is_excluded p root exclude_patterns out = false ∧
      (∀ q ∈ exclude_patterns,
        matchesExcludePattern (pathStrNorm (p.drop root.length)) (pyName p) q = false) ∧
      (∃ q ∈ include_patterns, fnmatchcase (pyName p) q = true) := by
  constructor
  · exact (List.filter_sublist entries).map (fun e => root ++ e.rel)
  · intro p hp
    unfold scanFiles at hp
    obtain ⟨e, he, hpe⟩ := List.mem_map.mp hp
    obtain ⟨hmem, hkeep⟩ := List.mem_filter.mp he
    subst hpe
    unfold keepEntry at hkeep
    by_cases hsp : sessionPrompt = some (root ++ e.rel)
    · rw [if_pos hsp] at hkeep; exact absurd hkeep (by simp)
    rw [if_neg hsp] at hkeep
    by_cases hex : is_excluded (root ++ e.rel) root exclude_patterns out = true
    · rw [if_pos hex] at hkeep; exact absurd hkeep (by simp)
    rw [if_neg hex] at hkeep
    have hexf : is_excluded (root ++ e.rel) root exclude_patterns out = false := by
      revert hex; cases is_excluded (root ++ e.rel) root exclude_patterns out <;> simp
    by_cases hf : e.isFile
    · rw [if_pos hf] at hkeep
      refine ⟨List.prefix_append root e.rel, ⟨e, hmem, rfl, hf⟩,
        is_excluded_eq_false_ne_out hexf, ?_, hexf, ?_, ?_⟩
      · intro s hs hps
        exact hsp (by rw [hs, hps])
      · intro q hq
        have := hexf
        rw [is_excluded_append root e.rel out exclude_patterns
          (is_excluded_eq_false_ne_out hexf)] at this
        have hall := List.any_eq_false.mp this
        have := hall _ hq
        simpa [List.drop_left] using this
      · obtain ⟨q, hq, hfq⟩ := List.any_eq_true.mp hkeep
        exact ⟨q, hq, hfq⟩
    · rw [if_neg hf] at hkeep; exact absurd hkeep (by simp)

/-- C2 witness: in the walk of the end-to-end scenario, the selected path
`proj/src/app.js` satisfies the guarantees of the selection invariant. -/
theorem scan_selection_invariant_witness :
    ([("proj").data, ("src").data, ("app.js").data] : List Str) ≠
      [("proj").data, ("combined_code.txt").data] ∧
    is_excluded [("proj").data, ("src").data, ("app.js").data] [("proj").data]
      [("*.test.js").data, ("node_modules/").data]
      [("proj").data, ("combined_code.txt").data] = false := by
  have h := (scan_selection_invariant [("proj").data]
      [⟨[("src").data], false⟩,
       ⟨[("src").data, ("app.js").data], true⟩,
       ⟨[("src").data, ("app.test.js").data], true⟩,
       ⟨[("node_modules").data], false⟩,
       ⟨[("node_modules").data, ("pkg").data], false⟩,
       ⟨[("node_modules").data, ("pkg").data, ("index.js").data], true⟩]
      [("*.js").data] [("*.test.js").data, ("node_modules/").data]
      [("proj").data, ("combined_code.txt").data] none).2
      [("proj").data, ("src").data, ("app.js").data] (by decide)
  exact ⟨h.2.2.1, h.2.2.2.2.1⟩

/-- C10 counterexample: with the bare basename pattern `build`, the entry
`proj/build/build`, nested beneath the directory `proj/build` whose base
name matches the pattern, is itself excluded by that very pattern —
because its own base name also matches.  So "files nested beneath that
directory are not excluded by that pattern" is false as stated. -/
theorem nested_same_name_excluded :
    is_excluded [("proj").data, ("build").data, ("build").data] [("proj").data]
      [("build").data] [("proj").data, ("combined_code.txt").data] = true := by
  decide

/-- C10 amended: a separator-free, non-directory-marker exclude pattern
that matches a directory's base name excludes the directory entry itself,
but does not exclude a file nested beneath it unless the file's own base
name also matches; the walk is not pruned, so such a nested
non-matching file is still visited and is selected whenever its base name
matches an include pattern (and it is not the output or session-prompt
file). -/
theorem basename_pattern_does_not_prune_subtree
    (root dRel fRel out : List Str) (p : Str)
    (hdne : dRel ≠ []) (hfne : fRel ≠ []) (hnest : dRel <+: fRel)
    (hdout : root ++ dRel ≠ out) (hfout : root ++ fRel ≠ out)
    (htrim : pyStrip p = p) (hpne : p ≠ []) (hnb : '\\' ∉ p) (hns : '/' ∉ p)
    (hdmatch : fnmatchcase (pyName dRel) p = true) :
    is_excluded (root ++ dRel) root [p] out = true ∧
    (fnmatchcase (pyName fRel) p = false →
      is_excluded (root ++ fRel) root [p] out = false) ∧
    ∀ (entries : List Entry) (include_patterns : List Str)
      (sessionPrompt : Option (List Str)),
      Entry.mk fRel true ∈ entries →
      fnmatchcase (pyName fRel) p = false →
      include_patterns.any (fun q => fnmatchcase (pyName fRel) q) = true →
      sessionPrompt ≠ some (root ++ fRel) →
      (root ++ fRel) ∈ scanFiles root entries include_patterns [p] out sessionPrompt := by
  have hdir : is_excluded (root ++ dRel) root [p] out = true := by
    rw [is_excluded_append root dRel out [p] hdout]
    simp only [List.any_cons, List.any_nil, Bool.or_false]
    rw [matchesExcludePattern_basename htrim hpne hnb hns, pyName_append root hdne]
    exact hdmatch
  have hfile : fnmatchcase (pyName fRel) p = false →
      is_excluded (root ++ fRel) root [p] out = false := by
    intro hfm
    rw [is_excluded_append root fRel out [p] hfout]
    simp only [List.any_cons, List.any_nil, Bool.or_false]
    rw [matchesExcludePattern_basename htrim hpne hnb hns, pyName_append root hfne]
    exact hfm
  refine ⟨hdir, hfile, ?_⟩
  intro entries include_patterns sessionPrompt hmem hfm hinc hsp
  unfold scanFiles
  refine List.mem_map.mpr ⟨Entry.mk fRel true, List.mem_filter.mpr ⟨hmem, ?_⟩, rfl⟩
  unfold keepEntry
  rw [if_neg hsp, if_neg (by rw [hfile hfm]; simp), if_pos rfl,
    pyName_append root hfne]
  exact hinc

/-- C10 witness: pattern `build` excludes the directory `proj/build`
itself, but `proj/build/main.py` is still visited and selected under the
include pattern `*.py`. -/
theorem basename_pattern_does_not_prune_subtree_witness :
    is_excluded [("proj").data, ("build").data] [("proj").data]
      [("build").data] [("proj").data, ("combined_code.txt").data] = true ∧
    [("proj").data, ("build").data, ("main.py").data] ∈
      scanFiles [("proj").data]
        [⟨[("build").data], false⟩, ⟨[("build").data, ("main.py").data], true⟩]
        [("*.py").data] [("build").data]
        [("proj").data, ("combined_code.txt").data] none := by
  have h := basename_pattern_does_not_prune_subtree [("proj").data]
    [("build").data] [("build").data, ("main.py").data]
    [("proj").data, ("combined_code.txt").data] (("build").data)
    (by decide) (by decide) ⟨[("main.py").data], rfl⟩
    (by decide) (by decide) (by decide) (by decide) (by decide) (by decide)
    (by decide)
  exact ⟨h.1, h.2.2
    [⟨[("build").data], false⟩, ⟨[("build").data, ("main.py").data], true⟩]
    [("*.py").data] none (by decide) (by decide) (by decide) (by decide)⟩

theorem alnumDot_ne_special {c : Char} (h : isAlnumDot c = true) :
    c ≠ ':' ∧ c ≠ '/' ∧ c ≠ '\\' ∧ pyIsSpace c = false := by
  refine ⟨?_, ?_, ?_, ?_⟩
  · rintro rfl; revert h; decide
  · rintro rfl; revert h; decide
  · rintro rfl; revert h; decide
  · cases hc : pyIsSpace c with
    | false => rfl
    | true =>
      exfalso
      have hc' : ((((c = ' ' ∨ c = '\t') ∨ c = '\n') ∨ c = '\r') ∨ c = '\x0b') ∨
          c = '\x0c' := by
        simpa [pyIsSpace] using hc
      rcases hc' with ((((rfl | rfl) | rfl) | rfl) | rfl) | rfl <;> revert h <;> decide

theorem processLine_include (acc : LoadedSettings × List Str × List Str) {line : Str}
    (hstrip : pyStrip line = line) (hne : line ≠ []) (hhead : ¬ line.head? = some '#')
    (hcolon : ':' ∉ line) (hinc : isIncludePatternLine line) :
    processLine acc line = (acc.1, acc.2.1 ++ [line], acc.2.2) := by
  unfold processLine
  rw [hstrip, if_neg hne, if_neg hhead, if_neg hcolon, if_pos hinc]

theorem processLine_exclude (acc : LoadedSettings × List Str × List Str) {line : Str}
    (hstrip : pyStrip line = line) (hne : line ≠ []) (hhead : ¬ line.head? = some '#')
    (hcolon : ':' ∉ line) (hinc : ¬ isIncludePatternLine line) :
    processLine acc line = (acc.1, acc.2.1, acc.2.2 ++ [line]) := by
  unfold processLine
  rw [hstrip, if_neg hne, if_neg hhead, if_neg hcolon, if_neg hinc]

theorem processLine_keyvalue (acc : LoadedSettings × List Str × List Str) {line : Str}
    (hstrip : pyStrip line = line) (hne : line ≠ []) (hhead : ¬ line.head? = some '#')
    (hcolon : ':' ∈ line) :
    processLine acc line = (applySetting acc.1 line, acc.2.1, acc.2.2) := by
  unfold processLine
  rw [hstrip, if_neg hne, if_neg hhead, if_pos hcolon]

/-- The normalized key of a `:`-containing rule-file line, as computed on
line 101. -/
def lineKey (sl : Str) : Str :=
  (pyStrip (sl.takeWhile (fun c => (c ≠ ':' : Bool)))).map keyNormChar

/-- Whether a `:`-containing rule-file line carries one of the four
recognized setting keys (lines 109–116). -/
def recognizedKey (sl : Str) : Prop :=
  lineKey sl = ("output_file").data ∨ lineKey sl = ("no_header").data ∨
    lineKey sl = ("default_extensions").data ∨
    lineKey sl = ("session_prompt_file").data

instance : DecidablePred recognizedKey := fun sl => by
  unfold recognizedKey; infer_instance

theorem applySetting_unrecognized (st : LoadedSettings) {sl : Str}
    (h : ¬ recognizedKey sl) : applySetting st sl = st := by
  unfold recognizedKey at h
  push_neg at h
  obtain ⟨h1, h2, h3, h4⟩ := h
  unfold applySetting
  unfold lineKey at h1 h2 h3 h4
  rw [if_neg h1, if_neg h2, if_neg h3, if_neg h4]

theorem starDotLine_facts {e : Str} (hall : e.all isAlnumDot = true) :
    pyStrip ('*' :: '.' :: e) = '*' :: '.' :: e ∧ ':' ∉ ('*' :: '.' :: e) ∧
    '/' ∉ ('*' :: '.' :: e) ∧ '\\' ∉ ('*' :: '.' :: e) := by
  have hmem : ∀ c ∈ e, isAlnumDot c = true := List.all_eq_true.mp hall
  refine ⟨pyStrip_eq_self ?_, ?_, ?_, ?_⟩
  · intro c hc
    simp only [List.mem_cons] at hc
    rcases hc with rfl | rfl | hc
    · decide
    · decide
    · exact (alnumDot_ne_special (hmem c hc)).2.2.2
  · intro h
    simp only [List.mem_cons] at h
    rcases h with h | h | h
    · exact absurd h (by decide)
    · exact absurd h (by decide)
    · exact absurd (hmem ':' h) (by decide)
  · intro h
    simp only [List.mem_cons] at h
    rcases h with h | h | h
    · exact absurd h (by decide)
    · exact absurd h (by decide)
    · exact absurd (hmem '/' h) (by decide)
  · intro h
    simp only [List.mem_cons] at h
    rcases h with h | h | h
    · exact absurd h (by decide)
    · exact absurd h (by decide)
    · exact absurd (hmem '\\' h) (by decide)

/-- C1 counterexample: the line `*.x:y` begins with `*.` and its suffix
`x:y` contains the non-alphanumeric, non-dot character `:`, so the claim
says it is classified as an exclude pattern — but `parse_config` treats
every `:`-containing line as a key-value setting line (`*.x` is an
unrecognized key, silently ignored): the exclude list stays empty, the
settings stay empty, and the include list falls back to the script
default. -/
theorem include_pattern_colon_line_not_excluded :
    (parseConfigLines [("*.x:y").data]).2.2 = [] ∧
    (parseConfigLines [("*.x:y").data]).1 = initSettings ∧
    (parseConfigLines [("*.x:y").data]).2.1 = DEFAULT_SCRIPT_INCLUDE_EXTENSIONS := by
  decide

/-- C1 amended: a line `*.<ext>` with `<ext>` non-empty and made of
alphanumeric or `.` characters only is always classified as an
include-extension pattern and never as an exclude pattern; any other
line beginning with `*.` that does not contain `:` is classified as an
exclude pattern (a `*.`-line containing `:` is treated as a key-value
setting line instead). -/
theorem include_pattern_line_classification (e1 e2 : Str)
    (hA1 : e1 ≠ []) (hA2 : e1.all isAlnumDot = true)
    (hB1 : ¬ (e2 ≠ [] ∧ e2.all isAlnumDot = true))
    (hB2 : ':' ∉ ('*' :: '.' :: e2))
    (hB3 : pyStrip ('*' :: '.' :: e2) = '*' :: '.' :: e2) :
    parseConfigLines ['*' :: '.' :: e1] = (initSettings, ['*' :: '.' :: e1], []) ∧
    parseConfigLines ['*' :: '.' :: e2] =
      (initSettings, DEFAULT_SCRIPT_INCLUDE_EXTENSIONS, ['*' :: '.' :: e2]) := by
  constructor
  · obtain ⟨hstrip, hcolon, hslash, hback⟩ := starDotLine_facts hA2
    have hinc : isIncludePatternLine ('*' :: '.' :: e1) :=
      ⟨⟨e1, rfl⟩, hslash, hback, hA1, hA2⟩
    unfold parseConfigLines parseLines
    rw [List.foldl_cons, List.foldl_nil,
      processLine_include _ hstrip (by simp) (by simp) hcolon hinc]
    simp [finalizeIncludes]
  · have hinc : ¬ isIncludePatternLine ('*' :: '.' :: e2) := by
      intro hi
      exact hB1 ⟨hi.2.2.2.1, hi.2.2.2.2⟩
    unfold parseConfigLines parseLines
    rw [List.foldl_cons, List.foldl_nil,
      processLine_exclude _ hB3 (by simp) (by simp) hB2 hinc]
    simp [finalizeIncludes, initSettings]

/-- C1 witness: `*.py` is classified as an include-extension pattern (and
not excluded); `*.log*` (suffix contains `*`, no `:`) is classified as an
exclude pattern. -/
theorem include_pattern_line_classification_witness :
    parseConfigLines [("*.py").data] = (initSettings, [("*.py").data], []) ∧
    parseConfigLines [("*.log*").data] =
      (initSettings, DEFAULT_SCRIPT_INCLUDE_EXTENSIONS, [("*.log*").data]) :=
  include_pattern_line_classification ("py").data ("log*").data
    (by decide) (by decide) (by decide) (by decide) (by decide)

/-- C8 counterexample: the line `foo: bar` is non-blank, non-comment, not
a recognized key-value setting and not an include-extension pattern, yet
`parse_config` does not classify it as an exclude pattern: any line
containing `:` is consumed as a key-value line, and its unrecognized key
is ignored, leaving the exclude list empty. -/
theorem unrecognized_key_line_not_excluded :
    parseConfigLines [("foo: bar").data] =
      (initSettings, DEFAULT_SCRIPT_INCLUDE_EXTENSIONS, []) := by
  decide

/-- C8 amended: every non-blank, non-comment rule-file line that contains
no `:` and is not an include-extension pattern is classified as an
exclude pattern; a line containing `:` is always consumed as a key-value
setting line, and an unrecognized key is ignored without being added to
any pattern list. -/
theorem nonsetting_line_exclusion_classification (line l2 : Str)
    (h1 : pyStrip line = line) (h2 : line ≠ []) (h3 : ¬ line.head? = some '#')
    (h4 : ':' ∉ line) (h5 : ¬ isIncludePatternLine line)
    (g1 : pyStrip l2 = l2) (g2 : l2 ≠ []) (g3 : ¬ l2.head? = some '#')
    (g4 : ':' ∈ l2) (g5 : ¬ recognizedKey l2) :
    (parseConfigLines [line]).2.2 = [line] ∧
    parseConfigLines [l2] = (initSettings, DEFAULT_SCRIPT_INCLUDE_EXTENSIONS, []) := by
  constructor
  · unfold parseConfigLines parseLines
    rw [List.foldl_cons, List.foldl_nil, processLine_exclude _ h1 h2 h3 h4 h5]
    simp
  · unfold parseConfigLines parseLines
    rw [List.foldl_cons, List.foldl_nil, processLine_keyvalue _ g1 g2 g3 g4,
      applySetting_unrecognized _ g5]
    simp [finalizeIncludes, initSettings]

/-- C8 witness: `.DS_Store` (no `:`, not an include pattern) becomes an
exclude pattern; `custom-key: v` is consumed as an unrecognized setting
and lands in no pattern list. -/
theorem nonsetting_line_exclusion_classification_witness :
    (parseConfigLines [(".DS_Store").data]).2.2 = [(".DS_Store").data] ∧
    parseConfigLines [("custom-key: v").data] =
      (initSettings, DEFAULT_SCRIPT_INCLUDE_EXTENSIONS, []) :=
  nonsetting_line_exclusion_classification (".DS_Store").data ("custom-key: v").data
    (by decide) (by decide) (by decide) (by decide) (by decide)
    (by decide) (by decide) (by decide) (by decide) (by decide)

/-- C6: `default_extensions: py, .ts, *.md` expands to exactly
`*.py, *.ts, *.md`; token-wise, `*.ext` passes through unchanged, `.ext`
becomes `*.ext`, and a bare `ext` becomes `*.ext`; the expanded list is
the include set only when no explicit `*.ext` pattern line exists, and
when neither exists the include set is the fixed built-in list. -/
theorem default_extensions_expansion_and_precedence :
    (parseConfigLines [("default_extensions: py, .ts, *.md").data]).2.1 =
      [("*.py").data, ("*.ts").data, ("*.md").data] ∧
    (∀ t : Str, ("*.").data <+: t → expandExtToken t = t) ∧
    (∀ t : Str, t.head? = some '.' → expandExtToken t = '*' :: t) ∧
    (∀ t : Str, ¬ ("*.").data <+: t → ¬ t.head? = some '.' →
      expandExtToken t = '*' :: '.' :: t) ∧
    (∀ (st : LoadedSettings) (inc : List Str), inc ≠ [] →
      finalizeIncludes st inc = inc) ∧
    (∀ (st : LoadedSettings) (s : Str), st.default_extensions_str = some s →
      s ≠ [] → finalizeIncludes st [] = expandDefaultExtensions s) ∧
    (∀ st : LoadedSettings, st.default_extensions_str = none →
      finalizeIncludes st [] = DEFAULT_SCRIPT_INCLUDE_EXTENSIONS) ∧
    (parseConfigLines [("default_extensions: py").data, ("*.rs").data]).2.1 =
      [("*.rs").data] := by
  refine ⟨by decide, ?_, ?_, ?_, ?_, ?_, ?_, by decide⟩
  · intro t ht
    unfold expandExtToken
    rw [if_pos ht]
  · intro t ht
    unfold expandExtToken
    rw [if_neg, if_pos ht]
    intro hp
    obtain ⟨u, hu⟩ := hp
    rw [← hu, show (("*.").data ++ u : Str) = '*' :: '.' :: u from rfl] at ht
    simp at ht
  · intro t hp hd
    unfold expandExtToken
    rw [if_neg hp, if_neg hd]
  · intro st inc hinc
    unfold finalizeIncludes
    rw [if_pos hinc]
  · intro st s hs hne
    unfold finalizeIncludes
    rw [if_neg (by simp), hs]
    simp [hne]
  · intro st hs
    unfold finalizeIncludes
    rw [if_neg (by simp), hs]

/-- C6 witness: the token expansions and the include-set precedence at
concrete inputs. -/
theorem default_extensions_expansion_and_precedence_witness :
    expandExtToken ("*.md").data = ("*.md").data ∧
    expandExtToken (".ts").data = ("*.ts").data ∧
    expandExtToken ("py").data = ("*.py").data ∧
    finalizeIncludes initSettings [("*.js").data] = [("*.js").data] ∧
    finalizeIncludes ⟨none, none, some (("py").data), none⟩ [] =
      expandDefaultExtensions (("py").data) ∧
    finalizeIncludes initSettings [] = DEFAULT_SCRIPT_INCLUDE_EXTENSIONS := by
  have h := default_extensions_expansion_and_precedence
  exact ⟨h.2.1 _ ⟨("md").data, rfl⟩, h.2.2.1 _ rfl,
    h.2.2.2.1 _ (by decide) (by decide), h.2.2.2.2.1 _ _ (by decide),
    h.2.2.2.2.2.1 _ _ rfl (by decide), h.2.2.2.2.2.2.1 _ rfl⟩

/-- C7 counterexample: for a missing rule file `parse_config` returns the
built-in include list `["*.js", "*.jsx"]` — not an empty include-pattern
list as the claim states (the fallback happens inside `parse_config`, not
in the caller) — and for an existing but unreadable rule file the
unhandled `open` error propagates out of `parse_config`. -/
theorem parse_config_missing_not_empty_includes :
    (parse_config ConfigSource.missing =
      Except.ok (initSettings, DEFAULT_SCRIPT_INCLUDE_EXTENSIONS, [])) ∧
    DEFAULT_SCRIPT_INCLUDE_EXTENSIONS ≠ [] ∧
    parse_config ConfigSource.unreadable = Except.error () :=
  ⟨rfl, by decide, rfl⟩

/-- C7 amended: a missing rule file is not an error: `parse_config`
returns empty settings, an empty exclude-pattern list, and the built-in
default include-extension list (the default fallback is applied inside
`parse_config`, not by the caller); an existing but unreadable rule file,
by contrast, makes `parse_config` raise. -/
theorem parse_config_missing_and_unreadable :
    parse_config ConfigSource.missing =
      Except.ok (initSettings, DEFAULT_SCRIPT_INCLUDE_EXTENSIONS, []) ∧
    parse_config ConfigSource.unreadable = Except.error () :=
  ⟨rfl, rfl⟩

/-- C3: per-setting precedence CLI > rule file > built-in default: a
supplied (non-empty) CLI output path always wins, else a supplied
rule-file path, else the default; the `--no-header` flag uses a `None`
sentinel, so an unset CLI flag never shadows a rule-file value; the
session-prompt path follows the same precedence with "absent" as its
default. -/
theorem settings_merge_precedence :
    (∀ (a : Str) (cfg : Option Str), a ≠ [] → (mergeOutput (some a) cfg).1 = a) ∧
    (∀ b : Str, b ≠ [] → (mergeOutput none (some b)).1 = b) ∧
    (mergeOutput none none).1 = DEFAULT_OUTPUT_FILENAME ∧
    (mergeOutput none (some [])).1 = DEFAULT_OUTPUT_FILENAME ∧
    (∀ (v : Bool) (cfg : Option Bool), mergeNoHeader (some v) cfg = v) ∧
    (∀ w : Bool, mergeNoHeader none (some w) = w) ∧
    mergeNoHeader none none = DEFAULT_NO_HEADER_STATE ∧
    (∀ (a : Str) (cfg : Option Str), a ≠ [] →
      mergeSessionPrompt (some a) cfg = some (a, SettingSource.cli)) ∧
    (∀ b : Str, b ≠ [] →
      mergeSessionPrompt none (some b) = some (b, SettingSource.config_file)) ∧
    mergeSessionPrompt none none = none := by
  refine ⟨?_, ?_, rfl, rfl, fun v cfg => rfl, fun w => rfl, rfl, ?_, ?_, rfl⟩
  · intro a cfg ha
    simp [mergeOutput, pyTruthy, ha]
  · intro b hb
    simp [mergeOutput, pyTruthy, hb]
  · intro a cfg ha
    simp [mergeSessionPrompt, pyTruthy, ha]
  · intro b hb
    simp [mergeSessionPrompt, pyTruthy, hb]

/-- C3 witness: the precedence at concrete inputs — a CLI output path
beats a rule-file path, a rule-file path beats the default, and an unset
`--no-header` does not shadow the rule-file value. -/
theorem settings_merge_precedence_witness :
    (mergeOutput (some (("a.txt").data)) (some (("b.txt").data))).1 = ("a.txt").data ∧
    (mergeOutput none (some (("b.txt").data))).1 = ("b.txt").data ∧
    mergeNoHeader (some true) (some false) = true ∧
    mergeNoHeader none (some true) = true ∧
    mergeSessionPrompt (some (("p.txt").data)) (some (("q.txt").data)) =
      some (("p.txt").data, SettingSource.cli) ∧
    mergeSessionPrompt none (some (("q.txt").data)) =
      some (("q.txt").data, SettingSource.config_file) := by
  have h := settings_merge_precedence
  exact ⟨h.1 _ _ (by decide), h.2.1 _ (by decide), h.2.2.2.2.1 _ _,
    h.2.2.2.2.2.1 _, h.2.2.2.2.2.2.2.1 _ _ (by decide),
    h.2.2.2.2.2.2.2.2.1 _ (by decide)⟩

theorem matchToksAux_lits (cs : Str) : ∀ (s : Str) (fuel : Nat),
    cs.length + s.length ≤ fuel →
    matchToksAux fuel (cs.map GlobTok.lit) s = decide (s = cs) := by
  induction cs with
  | nil =>
    intro s fuel _
    cases s with
    | nil => cases fuel <;> rfl
    | cons d s' => cases fuel <;> simp [matchToksAux]
  | cons c cs ih =>
    intro s fuel h
    cases fuel with
    | zero => simp at h
    | succ f =>
      cases s with
      | nil => simp [matchToksAux]
      | cons d s' =>
        simp only [List.map_cons, matchToksAux]
        rw [ih s' f (by simp at h ⊢; omega)]
        simp [List.cons_eq_cons, Bool.decide_and]

theorem compilePatAux_lits (t : Str) : ∀ fuel : Nat, t.length ≤ fuel →
    '*' ∉ t → '?' ∉ t → '[' ∉ t →
    compilePatAux fuel t = t.map GlobTok.lit := by
  induction t with
  | nil => intro fuel _ _ _ _; cases fuel <;> rfl
  | cons c t ih =>
    intro fuel h hs hq hb
    have hc1 : c ≠ '*' := fun hh => hs (hh ▸ List.mem_cons_self c t)
    have hc2 : c ≠ '?' := fun hh => hq (hh ▸ List.mem_cons_self c t)
    have hc3 : c ≠ '[' := fun hh => hb (hh ▸ List.mem_cons_self c t)
    cases fuel with
    | zero => simp at h
    | succ f =>
      have hrec := ih f (by simp at h; omega)
        (fun hm => hs (List.mem_cons_of_mem c hm))
        (fun hm => hq (List.mem_cons_of_mem c hm))
        (fun hm => hb (List.mem_cons_of_mem c hm))
      simp only [List.map_cons, ← hrec]
      rw [compilePatAux.eq_def]
      split <;> simp_all

/-- C9 counterexample: with the malformed bracket pattern `[abc`, the
entry `proj/[abc` IS excluded — the unparsable pattern still matches (the
unclosed `[` is taken literally) rather than "simply never matching", so
the path does not fail open to "not excluded". -/
theorem malformed_bracket_pattern_matches :
    is_excluded [("proj").data, ("[abc").data] [("proj").data]
      [("[abc").data] [("proj").data, ("combined_code.txt").data] = true := by
  decide

/-- C9 amended: `is_excluded` never raises an exception for any candidate
path and any exclude pattern, malformed glob syntax included — the only
raising operation inside, `relative_to`, is caught, and `fnmatch`
compiles every pattern totally; a pattern with an unclosed bracket is not
rejected but matched with the `[` as a literal character, so it can still
match (and exclude) a file of exactly that literal name rather than never
matching. -/
theorem is_excluded_never_raises_literal_bracket :
    (∀ (item root : List Str) (pats : List Str) (out : List Str),
      is_excludedE item root pats out =
        Except.ok (is_excluded item root pats out)) ∧
    (∀ (t name : Str), scanBracket t = none → '*' ∉ t → '?' ∉ t → '[' ∉ t →
      (fnmatchcase name ('[' :: t) = true ↔ name = '[' :: t)) := by
  constructor
  · intro item root pats out
    unfold is_excludedE is_excluded
    by_cases h : item = out
    · rw [if_pos h, if_pos h]
    · rw [if_neg h, if_neg h]
      cases relative_to item root <;> rfl
  · intro t name hb hs hq hbr
    unfold fnmatchcase matchToks compilePat
    have h1 : compilePatAux (t.length + 1) ('[' :: t) =
        GlobTok.lit '[' :: compilePatAux t.length t := by
      rw [compilePatAux.eq_def]
      split <;> try simp_all
      rename_i hne _ hconj
      exact absurd hconj.1.symm hne
    rw [show ('[' :: t).length = t.length + 1 from rfl, h1,
      compilePatAux_lits t t.length le_rfl hs hq hbr,
      show GlobTok.lit '[' :: t.map GlobTok.lit = ('[' :: t).map GlobTok.lit from rfl,
      matchToksAux_lits ('[' :: t) name
        ((('[' :: t).map GlobTok.lit).length + name.length) (by simp)]
    simp

/-- C9 witness: the malformed pattern `[abc` matches the literal name
`[abc`. -/
theorem is_excluded_never_raises_literal_bracket_witness :
    fnmatchcase ("[abc").data ("[abc").data = true :=
  (is_excluded_never_raises_literal_bracket.2 ("abc").data ("[abc").data
    (by decide) (by decide) (by decide) (by decide)).mpr rfl
